import Mathlib

/-!
Shallow embedding of the Lambda handler module `lambda/app.py` of the
ReactStreamlitDemo repository, together with the small event-construction
helper of `local_server.py`.

The embedding models:
* Python string operations used by the handlers (`in`, `split`, `replace`)
  as executable functions on `List Char`;
* Python `Decimal` values as integer mantissa/power-of-ten pairs and
  Python `float` values as dyadic rationals (integer mantissa times a
  power of two), with `float(Decimal(...))` embedded as correctly rounded
  (round-to-nearest, ties-to-even) conversion to a 53-bit significand —
  the IEEE-754 double-precision rounding for values in the normal range;
* parsed JSON values and Python runtime values as inductive types;
* each handler of `app.py` as a total function from the inbound event,
  the environment-variable state and an oracle describing the behaviour
  of the external network collaborators (the Snowflake connector and the
  Cortex Analyst REST endpoint) to the returned response envelope plus a
  trace recording which external resources were acquired and released.

External collaborators (the Snowflake wire protocol, the HTTP client) are
opaque in the source as well; they enter the model only through the
oracle types `SqlOutcome`, `ChatNet` and `TestOutcome`.
-/

namespace AppModel

/-! ### Python string primitives on `List Char`

`pyIsPrefix`, `pyContains`, `pyTakeBefore` and `pyReplaceAll` embed the
Python expressions `s.startswith(p)`, `p in s`, `s.split(p)[0]` and
`s.replace(p, r)` (for a non-empty pattern `p`).  `pyReplaceAll` uses
explicit fuel so that it is structurally recursive; fuel `s.length`
suffices because each step consumes at least one character of `s`. -/

def pyIsPrefix : List Char → List Char → Bool
  | [], _ => true
  | _ :: _, [] => false
  | a :: as, b :: bs => a = b && pyIsPrefix as bs

def pyContainsL (pat : List Char) : List Char → Bool
  | [] => pat.isEmpty
  | c :: rest => pyIsPrefix pat (c :: rest) || pyContainsL pat rest

def pyTakeBeforeL (pat : List Char) : List Char → List Char
  | [] => []
  | c :: rest =>
    if pyIsPrefix pat (c :: rest) then [] else c :: pyTakeBeforeL pat rest

def pyReplaceFuel (pat rep : List Char) : Nat → List Char → List Char
  | _, [] => []
  | 0, s => s
  | fuel + 1, c :: rest =>
    if pyIsPrefix pat (c :: rest)
    then rep ++ pyReplaceFuel pat rep fuel ((c :: rest).drop pat.length)
    else c :: pyReplaceFuel pat rep fuel rest

/-- Python `p in s` (substring test, non-empty pattern). -/
def pyContains (s pat : String) : Bool :=
  pyContainsL pat.data s.data

/-- Python `s.split(p)[0]`: the prefix of `s` before the first occurrence
of `p`, or all of `s` when `p` does not occur. -/
def pySplitHead (s pat : String) : String :=
  ⟨pyTakeBeforeL pat.data s.data⟩

/-- Python `s.replace(p, r)`: every non-overlapping occurrence of the
non-empty pattern `p`, scanned left to right, replaced by `r`. -/
def pyReplace (s pat rep : String) : String :=
  ⟨pyReplaceFuel pat.data rep.data s.data.length s.data⟩

/-! ### Python numeric values

`PyDec m e` is the Python `Decimal` with value `m · 10^e`.
`PyFloat m e` is a Python `float` (an IEEE-754 binary64 value) with value
`m · 2^e`; representation is not unique, so value equality is `valEq`. -/

structure PyDec where
  mant : Int
  exp10 : Int
  deriving DecidableEq, Repr

structure PyFloat where
  mant : Int
  exp2 : Int
  deriving DecidableEq, Repr

/-- Number of binary digits of `n` (`0` for `n = 0`); fuel-based so that
it reduces in the kernel. -/
def bitLenAux : Nat → Nat → Nat
  | 0, _ => 0
  | fuel + 1, n => if n = 0 then 0 else bitLenAux fuel (n / 2) + 1

def bitLen (n : Nat) : Nat := bitLenAux n n

/-- Value equality of two dyadic `float` representations. -/
def PyFloat.valEq (a b : PyFloat) : Bool :=
  if a.exp2 ≤ b.exp2
  then a.mant = b.mant * 2 ^ (b.exp2 - a.exp2).toNat
  else a.mant * 2 ^ (a.exp2 - b.exp2).toNat = b.mant

/-- `⌊log₂ (a / d)⌋` for positive naturals, via `bitLen` and one
correction step. -/
def ratFloorLog2 (a d : Nat) : Int :=
  let c : Int := (bitLen a : Int) - (bitLen d : Int)
  -- is 2^c ≤ a / d ?
  let le : Bool :=
    if 0 ≤ c then d * 2 ^ c.toNat ≤ a else d ≤ a * 2 ^ (-c).toNat
  if le then c else c - 1

/-- Round the non-negative rational `n / d` to the nearest integer,
ties to even. -/
def roundHalfEven (n d : Nat) : Nat :=
  let q := n / d
  let r := n % d
  if 2 * r < d then q
  else if d < 2 * r then q + 1
  else if q % 2 = 0 then q else q + 1

/-- Embedding of Python `float(Decimal(...))`: round `m · 10^e` to the
nearest binary64 value (round-to-nearest, ties-to-even, 53-bit
significand; the model covers the normal range — no overflow to infinity
and no subnormal flushing, which no realistic result-set decimal
reaches). -/
def floatOfDec (v : PyDec) : PyFloat :=
  if v.mant = 0 then ⟨0, 0⟩
  else
    let sgn : Int := if v.mant < 0 then -1 else 1
    -- value = sgn · a / d with a, d positive naturals
    let a : Nat :=
      if 0 ≤ v.exp10 then v.mant.natAbs * 10 ^ v.exp10.toNat else v.mant.natAbs
    let d : Nat :=
      if 0 ≤ v.exp10 then 1 else 10 ^ (-v.exp10).toNat
    let e : Int := ratFloorLog2 a d
    -- significand = round(a / d / 2^(e-52)), an integer in [2^52, 2^53]
    let n : Nat := if e ≤ 52 then a * 2 ^ (52 - e).toNat else a
    let dd : Nat := if e ≤ 52 then d else d * 2 ^ (e - 52).toNat
    ⟨sgn * (roundHalfEven n dd : Nat), e - 52⟩

/-! ### Calendar values and `isoformat`

`PyDate` and `PyDateTime` model `datetime.date` and `datetime.datetime`
cells (microsecond field omitted; the optional `tzOff` is the UTC offset
in minutes carried by an aware timestamp).  `isoDate`/`isoDateTime` embed
`.isoformat()`: zero-padded fields, `T` separator, and the source's own
offset appended unchanged — no timezone conversion. -/

structure PyDate where
  year : Nat
  month : Nat
  day : Nat
  deriving DecidableEq, Repr

structure PyDateTime where
  year : Nat
  month : Nat
  day : Nat
  hour : Nat
  minute : Nat
  second : Nat
  tzOff : Option Int
  deriving DecidableEq, Repr

def pad2 (n : Nat) : String :=
  if n < 10 then "0" ++ toString n else toString n

def pad4 (n : Nat) : String :=
  if n < 10 then "000" ++ toString n
  else if n < 100 then "00" ++ toString n
  else if n < 1000 then "0" ++ toString n
  else toString n

def isoDate (v : PyDate) : String :=
  pad4 v.year ++ "-" ++ pad2 v.month ++ "-" ++ pad2 v.day

def tzSuffix : Option Int → String
  | none => ""
  | some off =>
    (if off < 0 then "-" else "+") ++
      pad2 (off.natAbs / 60) ++ ":" ++ pad2 (off.natAbs % 60)

def isoDateTime (v : PyDateTime) : String :=
  pad4 v.year ++ "-" ++ pad2 v.month ++ "-" ++ pad2 v.day ++ "T" ++
    pad2 v.hour ++ ":" ++ pad2 v.minute ++ ":" ++ pad2 v.second ++
    tzSuffix v.tzOff

/-! ### JSON values and Python runtime values -/

/-- Parsed JSON, as produced by `json.loads` / `response.json()`
(Python keeps `int` and `float` JSON numbers distinct). -/
inductive Json where
  | null
  | bool (b : Bool)
  | int (n : Int)
  | float (f : PyFloat)
  | str (s : String)
  | arr (xs : List Json)
  | obj (kvs : List (String × Json))

/-- Python runtime values that can appear as result-set cells or be passed
to `json.dumps`. -/
inductive PyVal where
  | none
  | bool (b : Bool)
  | int (n : Int)
  | float (f : PyFloat)
  | str (s : String)
  | dec (v : PyDec)
  | date (v : PyDate)
  | datetime (v : PyDateTime)
  | bytes (bs : List Nat)
  | list (xs : List PyVal)
  | dict (kvs : List (String × PyVal))

/-- Python truthiness of a parsed JSON value (`if not x`). -/
def truthy : Json → Bool
  | .null => false
  | .bool b => b
  | .int n => n ≠ 0
  | .float f => f.mant ≠ 0
  | .str s => s ≠ ""
  | .arr xs => !xs.isEmpty
  | .obj kvs => !kvs.isEmpty

/-- Python type name of a parsed JSON value. -/
def jsonTypeName : Json → String
  | .null => "NoneType"
  | .bool _ => "bool"
  | .int _ => "int"
  | .float _ => "float"
  | .str _ => "str"
  | .arr _ => "list"
  | .obj _ => "dict"

/-- Lookup in a parsed JSON object (keys of a `json.loads` result are
unique, so first match suffices). -/
def jget : List (String × Json) → String → Json → Json
  | [], _, dflt => dflt
  | (k, v) :: rest, key, dflt => if k = key then v else jget rest key dflt

/-- Python `body.get(key, default)`: dictionary lookup when `body` is a
dict, `AttributeError` otherwise. -/
def pyGet (j : Json) (key : String) (dflt : Json) : Except (String × String) Json :=
  match j with
  | .obj kvs => .ok (jget kvs key dflt)
  | other =>
    .error ("'" ++ jsonTypeName other ++ "' object has no attribute 'get'",
            "AttributeError")

/-! ### `json.dumps` and the per-cell serialization loop of
`execute_sql_handler` (app.py lines 243–256) -/

/-- The body of the per-cell conversion in `execute_sql_handler`:
`date`/`datetime` → `.isoformat()`, `Decimal` → `float(...)`, `None`
stays `None`, everything else passes through unchanged. -/
def serializeCell : PyVal → PyVal
  | .date v => .str (isoDate v)
  | .datetime v => .str (isoDateTime v)
  | .dec v => .float (floatOfDec v)
  | .none => .none
  | v => v

mutual

/-- `json.dumps` on a Python value, returning the parsed shape of the
emitted JSON text, or the `TypeError` that `json.dumps` raises on a
non-serializable value. -/
def dumpsJson : PyVal → Except (String × String) Json
  | .none => .ok .null
  | .bool b => .ok (.bool b)
  | .int n => .ok (.int n)
  | .float f => .ok (.float f)
  | .str s => .ok (.str s)
  | .dec _ =>
    .error ("Object of type Decimal is not JSON serializable", "TypeError")
  | .date _ =>
    .error ("Object of type date is not JSON serializable", "TypeError")
  | .datetime _ =>
    .error ("Object of type datetime is not JSON serializable", "TypeError")
  | .bytes _ =>
    .error ("Object of type bytes is not JSON serializable", "TypeError")
  | .list xs => do pure (.arr (← dumpsList xs))
  | .dict kvs => do pure (.obj (← dumpsPairs kvs))

def dumpsList : List PyVal → Except (String × String) (List Json)
  | [] => .ok []
  | x :: xs => do pure ((← dumpsJson x) :: (← dumpsList xs))

def dumpsPairs : List (String × PyVal) → Except (String × String) (List (String × Json))
  | [] => .ok []
  | (k, v) :: rest => do pure ((k, ← dumpsJson v) :: (← dumpsPairs rest))

end

/-- A tabular statement result: `columns` from `cursor.description`,
`rows` from `cursor.fetchall()`. -/
structure ResultSet where
  columns : List String
  rows : List (List PyVal)

/-- Python `row_dict[col] = v`: overwrite in place if the key exists
(keeping its position, as a Python dict does), else append. -/
def dictSet (kvs : List (String × PyVal)) (k : String) (v : PyVal) :
    List (String × PyVal) :=
  if k ∈ kvs.map Prod.fst
  then kvs.map (fun p => if p.1 = k then (k, v) else p)
  else kvs ++ [(k, v)]

/-- One iteration of the outer loop: build `row_dict` from
`zip(columns, row)` (Python `zip` truncates to the shorter sequence),
converting each cell with `serializeCell`. -/
def rowDict (columns : List String) (row : List PyVal) :
    List (String × PyVal) :=
  (columns.zip row).foldl (fun acc p => dictSet acc p.1 (serializeCell p.2)) []

/-- The `results` list of `execute_sql_handler`: one dict per row. -/
def normalizeRows (columns : List String) (rows : List (List PyVal)) :
    List PyVal :=
  rows.map (fun row => .dict (rowDict columns row))

/-! ### Response envelopes -/

structure Envelope where
  statusCode : Nat
  headers : List (String × String)
  body : Json

/-- Headers set by every return site in `app.py`. -/
def stdHeaders : List (String × String) :=
  [("Content-Type", "application/json"), ("Access-Control-Allow-Origin", "*")]

def mkResp (code : Nat) (body : Json) : Envelope :=
  ⟨code, stdHeaders, body⟩

/-- The generic `except Exception` envelope:
`{"error": str(e), "type": type(e).__name__}` with status 500. -/
def errorResp (msg ty : String) : Envelope :=
  mkResp 500 (.obj [("error", .str msg), ("type", .str ty)])

/-! ### Inbound events

`EventBody` classifies `event.get('body', '{}')` by what `json.loads`
does with it: key absent (the default `'{}'` parses to an empty dict),
key present with value `None` (`json.loads(None)` raises `TypeError`),
a string parsing to a JSON value, or a string that fails to parse
(`JSONDecodeError`). -/

inductive EventBody where
  | absent
  | noneVal
  | jsonVal (j : Json)
  | malformed (msg : String)

def parseEventBody : EventBody → Except (String × String) Json
  | .absent => .ok (.obj [])
  | .noneVal =>
    .error ("the JSON object must be of type str, bytes or bytearray, not NoneType",
            "TypeError")
  | .jsonVal j => .ok j
  | .malformed msg => .error (msg, "JSONDecodeError")

/-- From `local_server.py`, `create_api_gateway_event`: the event's
`body` field is the raw request data when present and Python `None` for
a request with no payload. The argument is the request payload, already
classified by its parse behaviour; `Option.none` is the no-payload
request. -/
def create_api_gateway_event_body : Option EventBody → EventBody
  | Option.none => EventBody.noneVal
  | Option.some b => b

/-! ### Environment variables and external-world oracles -/

/-- The `SNOWFLAKE_*` environment variables (`os.environ.get` /
`os.getenv` yield `None` when unset). -/
structure EnvVars where
  account : Option String := Option.none
  user : Option String := Option.none
  token : Option String := Option.none
  warehouse : Option String := Option.none
  database : Option String := Option.none
  schema : Option String := Option.none

/-- Python truthiness of an `os.environ.get` result. -/
def truthyOptStr : Option String → Bool
  | Option.none => false
  | Option.some s => s ≠ ""

/-- Account cleaning in `get_snowflake_connection` (app.py lines 48–50)
and `test_snowflake_handler` (lines 305–307):
`if account and '.snowflakecomputing.com' in account:
account = account.split('.snowflakecomputing.com')[0]`. -/
def get_snowflake_connection_account (account : Option String) : Option String :=
  match account with
  | Option.none => Option.none
  | Option.some a =>
    if a ≠ "" && pyContains a ".snowflakecomputing.com"
    then Option.some (pySplitHead a ".snowflakecomputing.com")
    else Option.some a

/-- Account cleaning in `cortex_analyst_chat_handler` (app.py lines
101–103): `if '.snowflakecomputing.com' in account:
account = account.replace('.snowflakecomputing.com', '')`. -/
def chat_clean_account (account : String) : String :=
  if pyContains account ".snowflakecomputing.com"
  then pyReplace account ".snowflakecomputing.com" ""
  else account

/-- `account_url = account.replace('_', '-')` (app.py line 106). -/
def chat_account_url (account : String) : String :=
  pyReplace account "_" "-"

/-- Outcome of the Snowflake connector interaction in
`execute_sql_handler`: `get_snowflake_connection()` raises, or the
connection opens and `cursor.execute`/fetch raises, or the statement
succeeds with a result set. -/
inductive SqlOutcome where
  | connectRaises (msg ty : String)
  | executeRaises (msg ty : String)
  | succeeds (rs : ResultSet)

/-- Resource events observed during one invocation. -/
structure SqlTrace where
  connectAttempted : Bool := false
  connOpened : Bool := false
  cursorOpened : Bool := false
  cursorClosed : Bool := false
  connClosed : Bool := false
  deriving DecidableEq, Repr

/-! ### The handlers -/

/-- `execute_sql_handler` (app.py lines 208–285), as a function of the
inbound event body and the connector outcome; returns the envelope and
the resource trace.  On the success path the source closes the cursor
and the connection (lines 258–259) before serializing the body, so a
`json.dumps` failure still leaves both closed; on a connect or execute
failure control jumps to `except Exception` (line 274) with no close. -/
def execute_sql_handler (ev : EventBody) (out : SqlOutcome) :
    Envelope × SqlTrace :=
  match parseEventBody ev with
  | .error (msg, ty) => (errorResp msg ty, {})
  | .ok body =>
    match pyGet body "sql" (.str "") with
    | .error (msg, ty) => (errorResp msg ty, {})
    | .ok sql =>
      if truthy sql = false then
        (mkResp 400 (.obj [("error", .str "No SQL query provided")]), {})
      else
        match out with
        | .connectRaises msg ty =>
          (errorResp msg ty, { connectAttempted := true })
        | .executeRaises msg ty =>
          (errorResp msg ty,
           { connectAttempted := true, connOpened := true, cursorOpened := true })
        | .succeeds rs =>
          let results := normalizeRows rs.columns rs.rows
          let tr : SqlTrace :=
            { connectAttempted := true, connOpened := true, cursorOpened := true,
              cursorClosed := true, connClosed := true }
          let payload : PyVal :=
            .dict [("columns", .list (rs.columns.map PyVal.str)),
                   ("data", .list results),
                   ("row_count", .int results.length)]
          match dumpsJson payload with
          | .ok j => (mkResp 200 j, tr)
          | .error (msg, ty) => (errorResp msg ty, tr)

/-- Result of `response.json()`. -/
inductive JsonParse where
  | ok (j : Json)
  | fail (msg : String)

/-- Outcome of the `requests.post` call in `cortex_analyst_chat_handler`:
either the call raises a `RequestException`, or a response arrives with a
status code, a `response.json()` parse result and the raw `response.text`.
(A `response.json()` failure is `requests.exceptions.JSONDecodeError`,
a subclass of `RequestException`, so on a 200 response it is caught by
the first `except` clause.) -/
inductive ChatNet where
  | raises (msg : String)
  | response (status : Nat) (parsed : JsonParse) (text : String)

structure ChatTrace where
  postAttempted : Bool := false
  url : Option String := Option.none
  deriving DecidableEq, Repr

/-- Default value of `semantic_model` (app.py line 80). -/
def defaultSemanticModel : String :=
  "DAMPIERMIKE.REVENUE_TIMESERIES.RAW_DATA/revenue_timeseries.yaml"

/-- `cortex_analyst_chat_handler` (app.py lines 64–205), as a function of
the inbound event body, the environment variables and the REST-call
outcome; returns the envelope and a trace of whether (and to which URL)
the REST call was issued.  The Python defaults are
`os.getenv('SNOWFLAKE_ACCOUNT', '')`, `('SNOWFLAKE_TOKEN', '')`,
`('SNOWFLAKE_WAREHOUSE', 'MYWAREHOUSE')`,
`('SNOWFLAKE_DATABASE', 'DAMPIERMIKE')`, `('SNOWFLAKE_SCHEMA', 'PUBLIC')`;
the request headers and body are built from them but are not observed by
any claim, so the trace records only the URL. -/
def cortex_analyst_chat_handler (ev : EventBody) (env : EnvVars)
    (net : ChatNet) : Envelope × ChatTrace :=
  match parseEventBody ev with
  | .error (msg, ty) => (errorResp msg ty, {})
  | .ok body =>
    match pyGet body "messages" (.arr []) with
    | .error (msg, ty) => (errorResp msg ty, {})
    | .ok messages =>
      match pyGet body "semantic_model" (.str defaultSemanticModel) with
      | .error (msg, ty) => (errorResp msg ty, {})
      | .ok _semanticModel =>
        if truthy messages = false then
          (mkResp 400 (.obj [("error", .str "No messages provided")]), {})
        else
          let account0 := env.account.getD ""
          let token := env.token.getD ""
          let account := chat_clean_account account0
          let accountUrl := chat_account_url account
          if account = "" ∨ token = "" then
            (mkResp 500 (.obj [("error", .str "Missing Snowflake credentials")]), {})
          else
            let url :=
              "https://" ++ accountUrl ++ ".snowflakecomputing.com" ++
                "/api/v2/cortex/analyst/message"
            let tr : ChatTrace := { postAttempted := true, url := Option.some url }
            match net with
            | .raises msg =>
              (mkResp 500 (.obj [("error", .str ("REST API request failed: " ++ msg)),
                                 ("type", .str "RequestException")]), tr)
            | .response status parsed text =>
              if status = 200 then
                match parsed with
                | .ok j => (mkResp 200 j, tr)
                | .fail msg =>
                  (mkResp 500 (.obj [("error", .str ("REST API request failed: " ++ msg)),
                                     ("type", .str "RequestException")]), tr)
              else
                let details : Json :=
                  match parsed with
                  | .ok j => j
                  | .fail _ => .obj [("message", .str text)]
                (mkResp status
                  (.obj [("error", .str ("Cortex Analyst API error: " ++ toString status)),
                         ("details", details)]), tr)

/-- Outcome of the connector interaction in `test_snowflake_handler`. -/
inductive TestOutcome where
  | connectRaises (msg ty : String)
  | queryRaises (msg ty : String)
  | succeeds (version warehouse database schema : String)

/-- `test_snowflake_handler` (app.py lines 288–380), as a function of the
environment variables and the connector outcome (the handler never reads
the event).  Note the credential check `if not all([account, user,
token])` returns status 400 (lines 309–320); the `ImportError` branch is
not modelled (the module imports its connector unconditionally at top
level, so the branch is unreachable in a loaded module). -/
def test_snowflake_handler (env : EnvVars) (out : TestOutcome) :
    Envelope × SqlTrace :=
  let account := get_snowflake_connection_account env.account
  if (truthyOptStr account && truthyOptStr env.user && truthyOptStr env.token)
      = false then
    (mkResp 400 (.obj [("error", .str "Missing Snowflake credentials"),
      ("message", .str "Please set SNOWFLAKE_ACCOUNT, SNOWFLAKE_USER, and SNOWFLAKE_TOKEN environment variables")]),
     {})
  else
    match out with
    | .connectRaises msg ty => (errorResp msg ty, { connectAttempted := true })
    | .queryRaises msg ty =>
      (errorResp msg ty,
       { connectAttempted := true, connOpened := true, cursorOpened := true })
    | .succeeds v w d s =>
      (mkResp 200 (.obj [("message", .str "Successfully connected to Snowflake!"),
        ("snowflake_version", .str v), ("warehouse", .str w),
        ("database", .str d), ("schema", .str s)]),
       { connectAttempted := true, connOpened := true, cursorOpened := true,
         cursorClosed := true, connClosed := true })

end AppModel


/-!
## Theorems for the specification claims
-/

namespace AppModel

/-- **C2.** Per-cell normalization applies the per-type rule independently
and deterministically: a null cell stays `None` and `json.dumps` emits
JSON null for it; a date or timestamp cell becomes its ISO-8601 string,
built from the source's own calendar fields and carrying exactly the
source's own UTC offset (no shift); a decimal cell becomes the
correctly-rounded IEEE double, so `Decimal("12.50")` (mantissa 1250,
exponent −2) becomes the double of value 12.5; integer, floating-point
and text cells pass through unchanged; and the `results` list is the
cellwise image of the rows. -/
theorem per_type_cell_normalization (dv : PyDate) (tv : PyDateTime)
    (de : PyDec) (n : Int) (f : PyFloat) (s : String)
    (cols : List String) (rows : List (List PyVal)) :
    serializeCell PyVal.none = PyVal.none ∧
    dumpsJson PyVal.none = Except.ok Json.null ∧
    serializeCell (PyVal.date dv) = PyVal.str (isoDate dv) ∧
    isoDate dv = pad4 dv.year ++ "-" ++ pad2 dv.month ++ "-" ++ pad2 dv.day ∧
    serializeCell (PyVal.datetime tv) = PyVal.str (isoDateTime tv) ∧
    isoDateTime tv =
      pad4 tv.year ++ "-" ++ pad2 tv.month ++ "-" ++ pad2 tv.day ++ "T" ++
        pad2 tv.hour ++ ":" ++ pad2 tv.minute ++ ":" ++ pad2 tv.second ++
        tzSuffix tv.tzOff ∧
    serializeCell (PyVal.dec de) = PyVal.float (floatOfDec de) ∧
    (floatOfDec ⟨1250, -2⟩).valEq ⟨25, -1⟩ = true ∧
    serializeCell (PyVal.int n) = PyVal.int n ∧
    serializeCell (PyVal.float f) = PyVal.float f ∧
    serializeCell (PyVal.str s) = PyVal.str s ∧
    normalizeRows cols rows = rows.map (fun row => PyVal.dict (rowDict cols row)) :=
  ⟨rfl, rfl, rfl, rfl, rfl, rfl, rfl, by decide, rfl, rfl, rfl, rfl⟩

/-- **C5 (code bug).** A result-set cell of a type outside the handled
set — here a `bytes` cell, as a Snowflake `BINARY` column yields — is
passed through unchanged by the conversion loop, and `json.dumps` then
raises `TypeError`, so the invocation returns the generic 500 envelope
instead of a normalized 200 response; normalization is not total over
the declared type set. -/
theorem bytes_cell_gives_500_not_normalized :
    serializeCell (PyVal.bytes [1]) = PyVal.bytes [1] ∧
    (execute_sql_handler (.jsonVal (.obj [("sql", Json.str "SELECT B FROM T")]))
        (.succeeds ⟨["B"], [[PyVal.bytes [1]]]⟩)).1 =
      errorResp "Object of type bytes is not JSON serializable" "TypeError" ∧
    (execute_sql_handler (.jsonVal (.obj [("sql", Json.str "SELECT B FROM T")]))
        (.succeeds ⟨["B"], [[PyVal.bytes [1]]]⟩)).1.statusCode = 500 :=
  ⟨rfl, rfl, rfl⟩

/-- **C7 (counterexample).** The chat handler's account normalization
does not strip everything from the transport-domain suffix onward: on
`"A.snowflakecomputing.com.B"` it deletes the suffix substring and
yields `"A.B"`, not the leading identifier `"A"`. -/
theorem chat_account_not_truncated :
    chat_clean_account "A.snowflakecomputing.com.B" = "A.B" ∧
    chat_clean_account "A.snowflakecomputing.com.B" ≠ "A" := by
  decide

/-- **C7 (amended).** `get_snowflake_connection` truncates the account at
the first occurrence of `.snowflakecomputing.com`; the chat handler
instead deletes every occurrence of that substring, which agrees with
truncation whenever the suffix occurs exactly once, at the end — in
particular `"ABC123.snowflakecomputing.com"` normalizes to `"ABC123"`
on both paths; the URL-safe account replaces underscores with hyphens
(`"ABC_123"` ↦ `"ABC-123"`), while the connection-parameter account
keeps its underscores. -/
theorem account_normalization_behaviour :
    get_snowflake_connection_account (Option.some "ABC123.snowflakecomputing.com")
      = Option.some "ABC123" ∧
    chat_clean_account "ABC123.snowflakecomputing.com" = "ABC123" ∧
    chat_account_url (chat_clean_account "ABC_123.snowflakecomputing.com") = "ABC-123" ∧
    chat_account_url "ABC_123" = "ABC-123" ∧
    get_snowflake_connection_account (Option.some "ABC_123.snowflakecomputing.com")
      = Option.some "ABC_123" ∧
    chat_clean_account "A.snowflakecomputing.com.B" = "A.B" ∧
    get_snowflake_connection_account (Option.some "A.snowflakecomputing.com.B")
      = Option.some "A" := by
  decide

/-- **C10.** For an inbound event whose `body` key is present with value
`None` — the shape `create_api_gateway_event` of the local proxy builds
for a request with no payload — both handlers return the 500 envelope
carrying the `json.loads` `TypeError` message and type tag (not the 400
validation envelope), and no network call is attempted, because parsing
`None` raises before any field check runs. -/
theorem none_body_yields_500_type_error (out : SqlOutcome) (env : EnvVars)
    (net : ChatNet) :
    (execute_sql_handler (create_api_gateway_event_body Option.none) out).1 =
      errorResp "the JSON object must be of type str, bytes or bytearray, not NoneType"
        "TypeError" ∧
    (execute_sql_handler (create_api_gateway_event_body Option.none) out).1.statusCode
      = 500 ∧
    (execute_sql_handler (create_api_gateway_event_body Option.none) out).2.connectAttempted
      = false ∧
    (cortex_analyst_chat_handler (create_api_gateway_event_body Option.none) env net).1 =
      errorResp "the JSON object must be of type str, bytes or bytearray, not NoneType"
        "TypeError" ∧
    (cortex_analyst_chat_handler (create_api_gateway_event_body Option.none) env net).1.statusCode
      = 500 ∧
    (cortex_analyst_chat_handler (create_api_gateway_event_body Option.none) env net).2.postAttempted
      = false :=
  ⟨rfl, rfl, rfl, rfl, rfl, rfl⟩

end AppModel

namespace AppModel

/-- **C1.** An event whose parsed JSON body has an empty or missing
`sql` field makes `execute_sql_handler` return status 400 with body
exactly `{"error": "No SQL query provided"}`; an event whose parsed body
has an empty or missing `messages` list makes
`cortex_analyst_chat_handler` return status 400 with body exactly
`{"error": "No messages provided"}`; in both cases no connection or REST
call is attempted. -/
theorem empty_input_validation_400 (kvs mkvs : List (String × Json))
    (out : SqlOutcome) (env : EnvVars) (net : ChatNet)
    (hs : jget kvs "sql" (Json.str "") = Json.str "")
    (hm : jget mkvs "messages" (Json.arr []) = Json.arr []) :
    (execute_sql_handler (.jsonVal (.obj kvs)) out).1 =
      mkResp 400 (.obj [("error", Json.str "No SQL query provided")]) ∧
    (execute_sql_handler (.jsonVal (.obj kvs)) out).2.connectAttempted = false ∧
    (cortex_analyst_chat_handler (.jsonVal (.obj mkvs)) env net).1 =
      mkResp 400 (.obj [("error", Json.str "No messages provided")]) ∧
    (cortex_analyst_chat_handler (.jsonVal (.obj mkvs)) env net).2.postAttempted = false := by
  simp [execute_sql_handler, cortex_analyst_chat_handler, parseEventBody, pyGet,
    hs, hm, truthy]

/-- Witness for C1 at the empty event body `{}` (both fields missing). -/
theorem empty_input_validation_400_witness :
    (execute_sql_handler (.jsonVal (.obj [])) (.succeeds ⟨[], []⟩)).1 =
      mkResp 400 (.obj [("error", Json.str "No SQL query provided")]) ∧
    (execute_sql_handler (.jsonVal (.obj [])) (.succeeds ⟨[], []⟩)).2.connectAttempted = false ∧
    (cortex_analyst_chat_handler (.jsonVal (.obj [])) {} (.raises "boom")).1 =
      mkResp 400 (.obj [("error", Json.str "No messages provided")]) ∧
    (cortex_analyst_chat_handler (.jsonVal (.obj [])) {} (.raises "boom")).2.postAttempted = false :=
  empty_input_validation_400 [] [] (.succeeds ⟨[], []⟩) {} (.raises "boom") rfl rfl

/-- **C4 (counterexample).** A whitespace-only statement is not rejected
before the connection attempt: with `sql` equal to a single space the
handler calls `get_snowflake_connection` (a Python non-empty string is
truthy), and the invocation here ends in the generic 500, not the 400
validation envelope. -/
theorem whitespace_sql_reaches_connection :
    (execute_sql_handler (.jsonVal (.obj [("sql", Json.str " ")]))
        (.connectRaises "connection failed" "OperationalError")).2.connectAttempted = true ∧
    (execute_sql_handler (.jsonVal (.obj [("sql", Json.str " ")]))
        (.connectRaises "connection failed" "OperationalError")).1.statusCode = 500 :=
  ⟨rfl, rfl⟩

/-- **C4 (amended).** Only an empty (falsy) `sql` string is rejected
before a connection is attempted, with the 400 validation envelope; a
non-empty statement — whitespace-only included — is not rejected: the
handler proceeds to `get_snowflake_connection` (no trimming is
applied). -/
theorem empty_sql_fails_fast_whitespace_does_not
    (kvs : List (String × Json)) (out : SqlOutcome) (s : String)
    (h : jget kvs "sql" (Json.str "") = Json.str s) :
    (s = "" →
      (execute_sql_handler (.jsonVal (.obj kvs)) out).1 =
        mkResp 400 (.obj [("error", Json.str "No SQL query provided")]) ∧
      (execute_sql_handler (.jsonVal (.obj kvs)) out).2.connectAttempted = false) ∧
    (s ≠ "" →
      (execute_sql_handler (.jsonVal (.obj kvs)) out).2.connectAttempted = true) := by
  constructor
  · intro hs
    subst hs
    simp [execute_sql_handler, parseEventBody, pyGet, h, truthy]
  · intro hs
    simp only [execute_sql_handler, parseEventBody, pyGet, h, truthy]
    simp [hs]
    cases out <;> (repeat' split) <;> rfl

/-- Witness for C4 (amended) at `sql = " "` (one space). -/
theorem empty_sql_fails_fast_whitespace_does_not_witness :
    ((" " : String) = "" →
      (execute_sql_handler (.jsonVal (.obj [("sql", Json.str " ")]))
          (.connectRaises "connection failed" "OperationalError")).1 =
        mkResp 400 (.obj [("error", Json.str "No SQL query provided")]) ∧
      (execute_sql_handler (.jsonVal (.obj [("sql", Json.str " ")]))
          (.connectRaises "connection failed" "OperationalError")).2.connectAttempted = false) ∧
    ((" " : String) ≠ "" →
      (execute_sql_handler (.jsonVal (.obj [("sql", Json.str " ")]))
          (.connectRaises "connection failed" "OperationalError")).2.connectAttempted = true) :=
  empty_sql_fails_fast_whitespace_does_not [("sql", Json.str " ")]
    (.connectRaises "connection failed" "OperationalError") " " rfl

end AppModel

namespace AppModel

/-- **C3 (counterexample).** An invocation that acquires a connection and
then hits a statement error does NOT release its resources: control
jumps to the `except` clause, which returns the 500 envelope with the
connection and cursor still open — the connection is leaked. -/
theorem statement_error_leaks_connection :
    (execute_sql_handler (.jsonVal (.obj [("sql", Json.str "SELECT 1")]))
        (.executeRaises "SQL compilation error" "ProgrammingError")).2.connOpened = true ∧
    (execute_sql_handler (.jsonVal (.obj [("sql", Json.str "SELECT 1")]))
        (.executeRaises "SQL compilation error" "ProgrammingError")).2.connClosed = false ∧
    (execute_sql_handler (.jsonVal (.obj [("sql", Json.str "SELECT 1")]))
        (.executeRaises "SQL compilation error" "ProgrammingError")).2.cursorClosed = false ∧
    (execute_sql_handler (.jsonVal (.obj [("sql", Json.str "SELECT 1")]))
        (.executeRaises "SQL compilation error" "ProgrammingError")).1.statusCode = 500 :=
  ⟨rfl, rfl, rfl, rfl⟩

/-- **C3 (amended).** Cursor and connection are released on the success
exit path only — there both are closed (lines 258–259) before the
response body is serialized, so they are closed even when that
serialization fails; on a statement error after the connection is
acquired, the `except` clause propagates the 500 envelope without
closing either resource, leaking the connection. -/
theorem connection_release_success_path_only (ev : EventBody)
    (rs : ResultSet) (msg ty : String) :
    ((execute_sql_handler ev (.succeeds rs)).2.connClosed =
        (execute_sql_handler ev (.succeeds rs)).2.connOpened ∧
      (execute_sql_handler ev (.succeeds rs)).2.cursorClosed =
        (execute_sql_handler ev (.succeeds rs)).2.cursorOpened) ∧
    ((execute_sql_handler ev (.executeRaises msg ty)).2.connClosed = false ∧
      (execute_sql_handler ev (.executeRaises msg ty)).2.cursorClosed = false) := by
  unfold execute_sql_handler
  cases ev <;> simp [parseEventBody, pyGet] <;>
    (repeat' split) <;> simp_all

end AppModel

namespace AppModel

/-- **C8.** When the chat endpoint is reached but answers with a
non-success status, the returned envelope's status equals the remote
status and its body carries `details`: the parsed structured error body
when `response.json()` succeeds, else the raw response text wrapped in a
minimal `{"message": ...}` object. -/
theorem upstream_error_status_and_details (kvs : List (String × Json))
    (env : EnvVars) (status : Nat) (j : Json) (text failMsg : String)
    (hm : truthy (jget kvs "messages" (Json.arr [])) = true)
    (hcred : ¬(chat_clean_account (env.account.getD "") = "" ∨ env.token.getD "" = ""))
    (hst : status ≠ 200) :
    (cortex_analyst_chat_handler (.jsonVal (.obj kvs)) env
        (.response status (.ok j) text)).1 =
      mkResp status
        (.obj [("error", Json.str ("Cortex Analyst API error: " ++ toString status)),
               ("details", j)]) ∧
    (cortex_analyst_chat_handler (.jsonVal (.obj kvs)) env
        (.response status (.fail failMsg) text)).1 =
      mkResp status
        (.obj [("error", Json.str ("Cortex Analyst API error: " ++ toString status)),
               ("details", Json.obj [("message", Json.str text)])]) := by
  simp [cortex_analyst_chat_handler, parseEventBody, pyGet, hm, hcred, hst]

/-- Witness for C8: a remote 403 with body `{"message": "forbidden"}`
yields an envelope with status 403 whose body carries
`"details": {"message": "forbidden"}`. -/
theorem upstream_error_status_and_details_witness :
    (cortex_analyst_chat_handler
        (.jsonVal (.obj [("messages", Json.arr [Json.str "hi"])]))
        { account := Option.some "ABC123", token := Option.some "tok" }
        (.response 403 (.ok (Json.obj [("message", Json.str "forbidden")])) "forbidden-text")).1 =
      mkResp 403
        (.obj [("error", Json.str ("Cortex Analyst API error: " ++ toString 403)),
               ("details", Json.obj [("message", Json.str "forbidden")])]) ∧
    (cortex_analyst_chat_handler
        (.jsonVal (.obj [("messages", Json.arr [Json.str "hi"])]))
        { account := Option.some "ABC123", token := Option.some "tok" }
        (.response 403 (.fail "Expecting value") "forbidden-text")).1 =
      mkResp 403
        (.obj [("error", Json.str ("Cortex Analyst API error: " ++ toString 403)),
               ("details", Json.obj [("message", Json.str "forbidden-text")])]) :=
  upstream_error_status_and_details [("messages", Json.arr [Json.str "hi"])]
    { account := Option.some "ABC123", token := Option.some "tok" }
    403 (Json.obj [("message", Json.str "forbidden")]) "forbidden-text" "Expecting value"
    rfl (by decide) (by decide)

/-- **C9 (counterexample).** `test_snowflake_handler` performs a
credential check, yet with the access token absent it returns status
400 — not the claimed 500 — so the 500-for-missing-configuration rule
does not hold for every handler that performs a credential check. -/
theorem test_handler_missing_token_returns_400 :
    (test_snowflake_handler
        { account := Option.some "ACC", user := Option.some "U" }
        (.connectRaises "x" "y")).1.statusCode = 400 ∧
    (test_snowflake_handler
        { account := Option.some "ACC", user := Option.some "U" }
        (.connectRaises "x" "y")).1.body =
      Json.obj [("error", Json.str "Missing Snowflake credentials"),
        ("message", Json.str "Please set SNOWFLAKE_ACCOUNT, SNOWFLAKE_USER, and SNOWFLAKE_TOKEN environment variables")] :=
  ⟨rfl, rfl⟩

/-- **C9 (amended).** With required configuration absent, the chat
handler returns status 500 with an error mentioning the missing
credentials and attempts no network call; `test_snowflake_handler`, the
other handler with an explicit credential check, returns status 400
(same error message, also before any connection attempt).  The SQL
execution path has no explicit credential check of its own. -/
theorem missing_credentials_chat_500_test_400 (kvs : List (String × Json))
    (env : EnvVars) (net : ChatNet) (out : TestOutcome)
    (hm : truthy (jget kvs "messages" (Json.arr [])) = true)
    (hchat : chat_clean_account (env.account.getD "") = "" ∨ env.token.getD "" = "")
    (htest : truthyOptStr (get_snowflake_connection_account env.account) = false ∨
      truthyOptStr env.user = false ∨ truthyOptStr env.token = false) :
    (cortex_analyst_chat_handler (.jsonVal (.obj kvs)) env net).1 =
      mkResp 500 (.obj [("error", Json.str "Missing Snowflake credentials")]) ∧
    (cortex_analyst_chat_handler (.jsonVal (.obj kvs)) env net).2.postAttempted = false ∧
    (test_snowflake_handler env out).1.statusCode = 400 ∧
    (test_snowflake_handler env out).1.body =
      Json.obj [("error", Json.str "Missing Snowflake credentials"),
        ("message", Json.str "Please set SNOWFLAKE_ACCOUNT, SNOWFLAKE_USER, and SNOWFLAKE_TOKEN environment variables")] ∧
    (test_snowflake_handler env out).2.connectAttempted = false := by
  refine ⟨?_, ?_, ?_, ?_, ?_⟩ <;>
    simp [cortex_analyst_chat_handler, test_snowflake_handler, parseEventBody,
      pyGet, hm, hchat] <;>
    rcases htest with h | h | h <;> simp [h, mkResp]

/-- Witness for C9 (amended): token unset, account and user present. -/
theorem missing_credentials_chat_500_test_400_witness :
    (cortex_analyst_chat_handler
        (.jsonVal (.obj [("messages", Json.arr [Json.str "hi"])]))
        { account := Option.some "ACC", user := Option.some "U" }
        (.raises "boom")).1 =
      mkResp 500 (.obj [("error", Json.str "Missing Snowflake credentials")]) ∧
    (cortex_analyst_chat_handler
        (.jsonVal (.obj [("messages", Json.arr [Json.str "hi"])]))
        { account := Option.some "ACC", user := Option.some "U" }
        (.raises "boom")).2.postAttempted = false ∧
    (test_snowflake_handler { account := Option.some "ACC", user := Option.some "U" }
        (.connectRaises "x" "y")).1.statusCode = 400 ∧
    (test_snowflake_handler { account := Option.some "ACC", user := Option.some "U" }
        (.connectRaises "x" "y")).1.body =
      Json.obj [("error", Json.str "Missing Snowflake credentials"),
        ("message", Json.str "Please set SNOWFLAKE_ACCOUNT, SNOWFLAKE_USER, and SNOWFLAKE_TOKEN environment variables")] ∧
    (test_snowflake_handler { account := Option.some "ACC", user := Option.some "U" }
        (.connectRaises "x" "y")).2.connectAttempted = false :=
  missing_credentials_chat_500_test_400 [("messages", Json.arr [Json.str "hi"])]
    { account := Option.some "ACC", user := Option.some "U" }
    (.raises "boom") (.connectRaises "x" "y")
    rfl (Or.inr rfl) (Or.inr (Or.inr rfl))

end AppModel

namespace AppModel

/-- `row_dict[col] = v` with a key not yet present appends the pair. -/
theorem dictSet_fresh (kvs : List (String × PyVal)) (k : String) (v : PyVal)
    (h : k ∉ kvs.map Prod.fst) :
    dictSet kvs k v = kvs ++ [(k, v)] := by
  simp [dictSet, h]

/-- Folding `dictSet` over pairs whose keys are distinct and absent from
the accumulator appends them in order. -/
theorem foldl_dictSet_eq_append (ps : List (String × PyVal)) :
    ∀ acc : List (String × PyVal),
    (∀ p ∈ ps, p.1 ∉ acc.map Prod.fst) →
    (ps.map Prod.fst).Nodup →
    ps.foldl (fun a p => dictSet a p.1 p.2) acc = acc ++ ps := by
  induction ps with
  | nil => intro acc _ _; simp
  | cons p ps ih =>
    intro acc hdisj hnd
    have hp : p.1 ∉ acc.map Prod.fst := hdisj p (by simp)
    have hnd' := hnd
    simp only [List.map_cons, List.nodup_cons] at hnd'
    simp only [List.foldl_cons]
    rw [dictSet_fresh _ _ _ hp, ih (acc ++ [p]) ?_ hnd'.2]
    · simp
    · intro q hq
      simp only [List.map_append, List.mem_append, List.map_cons, List.map_nil,
        List.mem_singleton, not_or]
      refine ⟨hdisj q (by simp [hq]), ?_⟩
      intro hqp
      exact hnd'.1 (hqp ▸ (List.mem_map_of_mem Prod.fst hq))

/-- With unique column names and a row of matching width, `row_dict` is
exactly the column-aligned list of converted cells. -/
theorem rowDict_eq_zip_map (cols : List String) (row : List PyVal)
    (hnd : cols.Nodup) (hlen : row.length = cols.length) :
    rowDict cols row = (cols.zip row).map (fun p => (p.1, serializeCell p.2)) := by
  unfold rowDict
  have hkeys : ((cols.zip row).map (fun p => ((p.1, serializeCell p.2) : String × PyVal))).map
      Prod.fst = cols := by
    simp only [List.map_map]
    have : (Prod.fst ∘ fun p : String × PyVal => (p.1, serializeCell p.2)) = Prod.fst := by
      funext p; rfl
    rw [this]
    exact List.map_fst_zip _ _ hlen.ge
  have := foldl_dictSet_eq_append
    ((cols.zip row).map (fun p => (p.1, serializeCell p.2))) []
    (by simp) (by rw [hkeys]; exact hnd)
  rw [List.foldl_map] at this
  simpa using this

/-- **C6.** For a well-formed result set (unique column names, each row
exactly as wide as the column list), normalization preserves the row
count, every produced row dict has exactly the column names as keys (so
the column count is preserved), and the result is a pure function of the
input: equal inputs give equal outputs. -/
theorem normalize_preserves_shape (cols : List String) (rows : List (List PyVal))
    (hnd : cols.Nodup) (hlen : ∀ r ∈ rows, r.length = cols.length) :
    (normalizeRows cols rows).length = rows.length ∧
    (∀ d ∈ normalizeRows cols rows, ∃ kvs, d = PyVal.dict kvs ∧
      kvs.map Prod.fst = cols ∧ kvs.length = cols.length) ∧
    normalizeRows cols rows = normalizeRows cols rows := by
  refine ⟨by simp [normalizeRows], ?_, rfl⟩
  intro d hd
  simp only [normalizeRows, List.mem_map] at hd
  obtain ⟨r, hr, rfl⟩ := hd
  have hkeys : (rowDict cols r).map Prod.fst = cols := by
    rw [rowDict_eq_zip_map cols r hnd (hlen r hr)]
    simp only [List.map_map]
    have : (Prod.fst ∘ fun p : String × PyVal => (p.1, serializeCell p.2)) = Prod.fst := by
      funext p; rfl
    rw [this]
    exact List.map_fst_zip _ _ (hlen r hr).ge
  refine ⟨rowDict cols r, rfl, hkeys, ?_⟩
  have := congrArg List.length hkeys
  simpa using this

/-- Witness for C6 at a two-column, two-row result set. -/
theorem normalize_preserves_shape_witness :
    (normalizeRows ["A", "B"] [[PyVal.int 1, PyVal.str "x"],
        [PyVal.none, PyVal.date ⟨2024, 1, 2⟩]]).length = 2 ∧
    (∀ d ∈ normalizeRows ["A", "B"] [[PyVal.int 1, PyVal.str "x"],
        [PyVal.none, PyVal.date ⟨2024, 1, 2⟩]], ∃ kvs, d = PyVal.dict kvs ∧
      kvs.map Prod.fst = ["A", "B"] ∧ kvs.length = (["A", "B"] : List String).length) ∧
    normalizeRows ["A", "B"] [[PyVal.int 1, PyVal.str "x"],
        [PyVal.none, PyVal.date ⟨2024, 1, 2⟩]] =
      normalizeRows ["A", "B"] [[PyVal.int 1, PyVal.str "x"],
        [PyVal.none, PyVal.date ⟨2024, 1, 2⟩]] := by
  have := normalize_preserves_shape ["A", "B"]
    [[PyVal.int 1, PyVal.str "x"], [PyVal.none, PyVal.date ⟨2024, 1, 2⟩]]
    (by decide) (by decide)
  simpa using this

end AppModel
